import Mathlib

/-
Formal model of the `MediaSourceMuxer` pipeline of Homer-Conferencing.

The definitions below are a shallow embedding of the C++ code in
`MediaSourceMuxer.cpp` (the muxer/pipeline file).  C `int`/`int64_t`
arithmetic is modelled on `ℤ` (all values handled here are far from the
overflow boundaries); C integer division (truncation toward zero) is
`Int.tdiv`; C `float`/`double` values that only ever hold exact small
quantities (frame rates) are modelled on `ℚ`.  Collaborator constants and
functions that live outside the muxer file (wire-overhead constants from
`HBSocket.h`, `RTP::GetHeaderSizeMax`, the GUI-name/codec-id mapping from
`MediaSource.cpp`, the `MediaFifo` queue primitive) are modelled as
explicit parameters or, where noted, from their specified behaviour.
-/

namespace HomerMux

/-- The ffmpeg codec identifiers (`enum AVCodecID`) that
`MediaSourceMuxer` treats specially, plus `other` for every remaining
codec id (all of which fall into the `default` branches of the code). -/
inductive CodecID where
  | NONE
  | H261
  | H263
  | H263P
  | H264
  | HEVC
  | THEORA
  | MP3
  | other (id : ℕ)
deriving DecidableEq, Repr

/-- C integer conversion of a real-valued expression to an integer:
truncation toward zero (used when a `float` expression is assigned to an
integer variable, as in `CalculateEncoderPts`). -/
def cTruncQ (q : ℚ) : ℤ := if 0 ≤ q then ⌊q⌋ else ⌈q⌉

/-- The packet-size adjustment performed by
`MediaSourceMuxer::SetOutputStreamPreferences` (part_000 lines 240-249):
subtract the IPv6 header, IP options, TCP header, TCP fragment header and
maximum RTP header overheads from the requested maximum packet size, then
clamp the result from above to `MEDIA_SOURCE_MEM_FRAGMENT_BUFFER_SIZE -
256`.  The overhead constants and the buffer limit are defined outside
the muxer file and are therefore parameters here.  Note that the code
contains no lower clamp. -/
def computeStoredPacketBudget (fragmentBufferSize ip6HeaderSize ipOptionsSize
    tcpHeaderSize tcpFragmentHeaderSize rtpHeaderSizeMax maxPacketSize : ℤ) : ℤ :=
  let v := maxPacketSize - ip6HeaderSize - ipOptionsSize - tcpHeaderSize
            - tcpFragmentHeaderSize - rtpHeaderSizeMax
  if v > fragmentBufferSize - 256 then fragmentBufferSize - 256 else v

/-- `MediaSourceMuxer::ValidateVideoResolutionForEncoderCodec`
(part_000 lines 323-401), as a pure function of the requested resolution
and the codec id.  `Int.tdiv` models the C `int` divisions used for the
multiple-of-4 (H.263+) and multiple-of-2 (H.264/HEVC) alignment. -/
def validateVideoResolutionForEncoderCodec (resX resY : ℤ) (codec : CodecID) : ℤ × ℤ :=
  match codec with
  | .H261 =>
      if resX > 176 then (352, 288) else (176, 144)
  | .H263 =>
      if resX > 704 then (1408, 1152)
      else if resX > 352 then (704, 576)
      else if resX > 176 then (352, 288)
      else if resX > 128 then (176, 144)
      else (128, 96)
  | .H263P =>
      let x := if resX > 2048 ∨ resY > 1152 then 2048 else resX
      let y := if resX > 2048 ∨ resY > 1152 then 1152 else resY
      (Int.tdiv (x + 3) 4 * 4, Int.tdiv (y + 3) 4 * 4)
  | .H264 =>
      (Int.tdiv (resX + 1) 2 * 2, Int.tdiv (resY + 1) 2 * 2)
  | .HEVC =>
      (Int.tdiv (resX + 1) 2 * 2, Int.tdiv (resY + 1) 2 * 2)
  | .THEORA => (352, 288)
  | _ => (resX, resY)

/-- Claim C2, counterexample.  The claim states that the stored packet
budget is clamped into `[0, transportBufferLimit - 256]` and "is never
negative".  The code (part_000 lines 240-249) only clamps from above:
with the nominal wire-overhead values (IPv6 header 40, IP options 40,
TCP header 20, TCP fragment header 8, max RTP header 16; the exact
positive values are immaterial) a requested maximum packet size of 0
yields the stored budget -124, which is negative. -/
theorem c2_counterexample :
    computeStoredPacketBudget 65536 40 40 20 8 16 0 = -124 ∧
    ¬ (0 ≤ computeStoredPacketBudget 65536 40 40 20 8 16 0) := by
  constructor
  · decide
  · decide

/-- Claim C2, amended.  For every call the stored packet budget equals
`min (requested - ip6 - ipOptions - tcp - tcpFragment - rtpMax)
(fragmentBufferLimit - 256)`: the budget is the overhead-adjusted request
clamped from above to `transportBufferLimit - 256`; no lower clamp to 0
is applied, so the budget is negative exactly when the adjusted request
(or the buffer limit minus 256) is negative. -/
theorem c2_packet_budget_amended (L i6 iOpt tcp tFrag rtp m : ℤ) :
    computeStoredPacketBudget L i6 iOpt tcp tFrag rtp m
      = min (m - i6 - iOpt - tcp - tFrag - rtp) (L - 256) := by
  simp only [computeStoredPacketBudget]
  split <;> omega

/-- Claim C3: the resolution validator is a pure, deterministic function
of `(resX, resY, codec)` (it is a Lean function of exactly those
arguments); for H.261 the input 640x480 maps to 352x288; for H.264 each
dimension is rounded up to the nearest even value, so 640x480 is
unchanged and 101x101 maps to 102x102; codecs without a specific policy
(the `default` branch, e.g. `AV_CODEC_ID_NONE`, MP3, and every other
codec id) pass the input through unchanged. -/
theorem c3_resolution_validator :
    validateVideoResolutionForEncoderCodec 640 480 CodecID.H261 = (352, 288) ∧
    validateVideoResolutionForEncoderCodec 640 480 CodecID.H264 = (640, 480) ∧
    validateVideoResolutionForEncoderCodec 101 101 CodecID.H264 = (102, 102) ∧
    (∀ x y : ℤ, validateVideoResolutionForEncoderCodec x y CodecID.NONE = (x, y)) ∧
    (∀ x y : ℤ, validateVideoResolutionForEncoderCodec x y CodecID.MP3 = (x, y)) ∧
    (∀ (x y : ℤ) (n : ℕ),
      validateVideoResolutionForEncoderCodec x y (CodecID.other n) = (x, y)) := by
  refine ⟨by decide, by decide, by decide, ?_, ?_, ?_⟩
  · intro x y; rfl
  · intro x y; rfl
  · intro x y n; rfl

/-- Collaborators of `SetOutputStreamPreferences` that are defined
outside the muxer file: the GUI-name/codec-id mapping
(`GetCodecIDFromGuiName` / `GetGuiNameFromCodecID`), encoder
availability (`avcodec_find_encoder != NULL`), the wire-overhead
constants from `HBSocket.h`, and `RTP::GetHeaderSizeMax`. -/
structure MuxerEnv where
  codecFromGui : String → CodecID
  guiNameFromCodec : CodecID → String
  encoderAvailable : CodecID → Bool
  fragmentBufferSize : ℤ
  ip6HeaderSize : ℤ
  ipOptionsSize : ℤ
  tcpHeaderSize : ℤ
  tcpFragmentHeaderSize : ℤ
  rtpHeaderSizeMax : CodecID → ℤ

/-- `MediaSourceMuxer::IsOutputCodecSupported` (part_000 lines 210-226):
the GUI name must round-trip through the codec-id mapping and an encoder
for the codec must be available (otherwise the function only logs). -/
def isOutputCodecSupported (env : MuxerEnv) (streamCodec : String) : Bool :=
  let id := env.codecFromGui streamCodec
  if env.guiNameFromCodec id = streamCodec then env.encoderAvailable id else false

/-- The overhead adjustment of the requested packet size inside
`SetOutputStreamPreferences`, with the collaborator constants taken from
the environment. -/
def adjustedMaxPacketSize (env : MuxerEnv) (codec : CodecID) (maxPacketSize : ℤ) : ℤ :=
  computeStoredPacketBudget env.fragmentBufferSize env.ip6HeaderSize env.ipOptionsSize
    env.tcpHeaderSize env.tcpFragmentHeaderSize (env.rtpHeaderSizeMax codec) maxPacketSize

/-- The muxer instance fields read or written by
`SetOutputStreamPreferences` (initial values: part_000 lines 77-92). -/
structure MuxerState where
  streamCodecId : CodecID
  streamMaxFps : ℤ
  streamQuality : ℤ
  streamBitRate : ℤ
  streamMaxPacketSize : ℤ
  currentStreamingResX : ℤ
  currentStreamingResY : ℤ
  requestedStreamingResX : ℤ
  requestedStreamingResY : ℤ
  mediaSourceOpened : Bool
deriving DecidableEq, Repr

/-- Result of one `SetOutputStreamPreferences` call: the returned
`changed` flag, whether the unsupported-codec rejection was logged,
whether `Reset()` was invoked, and the muxer state after the call. -/
structure SetPreferencesResult where
  changed : Bool
  loggedUnsupportedCodec : Bool
  didReset : Bool
  state : MuxerState
deriving DecidableEq, Repr

/-- The resolution actually compared and persisted by
`SetOutputStreamPreferences` (part_000 lines 251-268): when both
coordinates differ from -1 the request is validated for the codec,
otherwise it is used as given. -/
def requestedResolution (env : MuxerEnv) (streamCodec : String) (resX resY : ℤ) : ℤ × ℤ :=
  if resX ≠ -1 ∧ resY ≠ -1 then
    validateVideoResolutionForEncoderCodec resX resY (env.codecFromGui streamCodec)
  else (resX, resY)

/-- The field comparison of `SetOutputStreamPreferences` (part_000 lines
270-275): codec id, max fps, quality, bit rate, adjusted packet size,
and the validated resolution against the *current streaming*
resolution. -/
def prefsChanged (env : MuxerEnv) (s : MuxerState) (streamCodec : String)
    (mediaStreamQuality bitRate maxPacketSize resX resY maxFps : ℤ) : Prop :=
  s.streamCodecId ≠ env.codecFromGui streamCodec ∨
  s.streamMaxFps ≠ maxFps ∨
  s.streamQuality ≠ mediaStreamQuality ∨
  s.streamBitRate ≠ bitRate ∨
  s.streamMaxPacketSize ≠ adjustedMaxPacketSize env (env.codecFromGui streamCodec) maxPacketSize ∨
  s.currentStreamingResX ≠ (requestedResolution env streamCodec resX resY).1 ∨
  s.currentStreamingResY ≠ (requestedResolution env streamCodec resX resY).2

instance (env : MuxerEnv) (s : MuxerState) (streamCodec : String)
    (q b m x y f : ℤ) : Decidable (prefsChanged env s streamCodec q b m x y f) := by
  unfold prefsChanged; infer_instance

/-- `MediaSourceMuxer::SetOutputStreamPreferences` (part_000 lines
229-321).  The codec name is mapped to a codec id; the unsupported-codec
check only logs; the packet size is overhead-adjusted and clamped from
above; on a change all preference fields are persisted (the resolution
into the *requested* fields) and `Reset()` runs iff `doReset` is set and
the session is open. -/
def setOutputStreamPreferences (env : MuxerEnv) (s : MuxerState) (streamCodec : String)
    (mediaStreamQuality bitRate maxPacketSize : ℤ) (doReset : Bool)
    (resX resY maxFps : ℤ) : SetPreferencesResult :=
  if prefsChanged env s streamCodec mediaStreamQuality bitRate maxPacketSize resX resY maxFps then
    { changed := true
      loggedUnsupportedCodec := !(isOutputCodecSupported env streamCodec)
      didReset := doReset && s.mediaSourceOpened
      state := { s with
        streamCodecId := env.codecFromGui streamCodec
        streamMaxFps := maxFps
        streamQuality := mediaStreamQuality
        streamBitRate := bitRate
        streamMaxPacketSize := adjustedMaxPacketSize env (env.codecFromGui streamCodec) maxPacketSize
        requestedStreamingResX := (requestedResolution env streamCodec resX resY).1
        requestedStreamingResY := (requestedResolution env streamCodec resX resY).2 } }
  else
    { changed := false
      loggedUnsupportedCodec := !(isOutputCodecSupported env streamCodec)
      didReset := false
      state := s }

/-- Unfolding equation of `setOutputStreamPreferences` when some
compared field differs. -/
theorem setPrefs_pos (env : MuxerEnv) (s : MuxerState) (streamCodec : String)
    (q b m : ℤ) (dr : Bool) (x y f : ℤ)
    (h : prefsChanged env s streamCodec q b m x y f) :
    setOutputStreamPreferences env s streamCodec q b m dr x y f =
      { changed := true
        loggedUnsupportedCodec := !(isOutputCodecSupported env streamCodec)
        didReset := dr && s.mediaSourceOpened
        state := { s with
          streamCodecId := env.codecFromGui streamCodec
          streamMaxFps := f
          streamQuality := q
          streamBitRate := b
          streamMaxPacketSize := adjustedMaxPacketSize env (env.codecFromGui streamCodec) m
          requestedStreamingResX := (requestedResolution env streamCodec x y).1
          requestedStreamingResY := (requestedResolution env streamCodec x y).2 } } := by
  simp only [setOutputStreamPreferences, if_pos h]

/-- Unfolding equation of `setOutputStreamPreferences` when no compared
field differs. -/
theorem setPrefs_neg (env : MuxerEnv) (s : MuxerState) (streamCodec : String)
    (q b m : ℤ) (dr : Bool) (x y f : ℤ)
    (h : ¬ prefsChanged env s streamCodec q b m x y f) :
    setOutputStreamPreferences env s streamCodec q b m dr x y f =
      { changed := false
        loggedUnsupportedCodec := !(isOutputCodecSupported env streamCodec)
        didReset := false
        state := s } := by
  simp only [setOutputStreamPreferences, if_neg h]

/-- A sample collaborator environment used for concrete evaluations: a
GUI-name mapping knowing H.261, every encoder available, and nominal
wire-overhead values. -/
def sampleEnv : MuxerEnv where
  codecFromGui := fun n => if n = "H.261" then CodecID.H261 else CodecID.NONE
  guiNameFromCodec := fun c => match c with
    | CodecID.H261 => "H.261"
    | _ => "unknown"
  encoderAvailable := fun _ => true
  fragmentBufferSize := 65536
  ip6HeaderSize := 40
  ipOptionsSize := 40
  tcpHeaderSize := 20
  tcpFragmentHeaderSize := 8
  rtpHeaderSizeMax := fun _ => 16

/-- The muxer state as established by the constructor (part_000 lines
77-92): no codec, max packet size 500, quality 20, bit rate -1, max fps
0, current streaming resolution 0x0, requested resolution 352x288,
session closed. -/
def initialMuxerState : MuxerState where
  streamCodecId := CodecID.NONE
  streamMaxFps := 0
  streamQuality := 20
  streamBitRate := -1
  streamMaxPacketSize := 500
  currentStreamingResX := 0
  currentStreamingResY := 0
  requestedStreamingResX := 352
  requestedStreamingResY := 288
  mediaSourceOpened := false

/-- Claim C4, counterexample.  The claim concludes that calling
`SetOutputStreamPreferences` twice with identical arguments returns
`false` on the second call.  On the constructor state, both calls with
the identical argument tuple (H.261, quality 20, bit rate -1, packet
size 1000, no reset, 352x288, max fps 0) return `true`: the comparison
checks the requested resolution against the *current streaming*
resolution (0x0, unchanged by the call) while the call persists it into
the *requested* resolution fields. -/
theorem c4_counterexample :
    (setOutputStreamPreferences sampleEnv initialMuxerState "H.261"
        20 (-1) 1000 false 352 288 0).changed = true ∧
    (setOutputStreamPreferences sampleEnv
        (setOutputStreamPreferences sampleEnv initialMuxerState "H.261"
          20 (-1) 1000 false 352 288 0).state "H.261"
        20 (-1) 1000 false 352 288 0).changed = true := by
  constructor
  · rfl
  · rfl

/-- Claim C4, amended.  `SetOutputStreamPreferences` returns `true` iff
at least one compared field differs, where the resolution is compared
against the *current streaming* resolution while persistence writes the
*requested* resolution; on a `true` result it persists all new
preference values regardless of `doReset` (the current streaming
resolution and the open flag are untouched), and it resets exactly when
it returned `true`, `doReset` is set and the session is open.  A second
call with identical arguments returns `false` iff the current streaming
resolution (which the first call did not change) already equals the
persisted requested resolution; otherwise it returns `true` again. -/
theorem c4_set_preferences_amended (env : MuxerEnv) (s : MuxerState)
    (streamCodec : String) (q b m : ℤ) (dr : Bool) (x y f : ℤ) :
    ((setOutputStreamPreferences env s streamCodec q b m dr x y f).changed = false →
      (setOutputStreamPreferences env s streamCodec q b m dr x y f).state = s ∧
      (setOutputStreamPreferences env s streamCodec q b m dr x y f).didReset = false) ∧
    ((setOutputStreamPreferences env s streamCodec q b m dr x y f).changed = true →
      (setOutputStreamPreferences env s streamCodec q b m dr x y f).state.streamCodecId
          = env.codecFromGui streamCodec ∧
      (setOutputStreamPreferences env s streamCodec q b m dr x y f).state.streamMaxFps = f ∧
      (setOutputStreamPreferences env s streamCodec q b m dr x y f).state.streamQuality = q ∧
      (setOutputStreamPreferences env s streamCodec q b m dr x y f).state.streamBitRate = b ∧
      (setOutputStreamPreferences env s streamCodec q b m dr x y f).state.streamMaxPacketSize
          = adjustedMaxPacketSize env (env.codecFromGui streamCodec) m ∧
      (setOutputStreamPreferences env s streamCodec q b m dr x y f).state.currentStreamingResX
          = s.currentStreamingResX ∧
      (setOutputStreamPreferences env s streamCodec q b m dr x y f).state.currentStreamingResY
          = s.currentStreamingResY ∧
      (setOutputStreamPreferences env s streamCodec q b m dr x y f).state.mediaSourceOpened
          = s.mediaSourceOpened) ∧
    ((setOutputStreamPreferences env s streamCodec q b m dr x y f).didReset
        = ((setOutputStreamPreferences env s streamCodec q b m dr x y f).changed
            && dr && s.mediaSourceOpened)) ∧
    ((setOutputStreamPreferences env s streamCodec q b m dr x y f).changed = true →
      ((setOutputStreamPreferences env
          (setOutputStreamPreferences env s streamCodec q b m dr x y f).state
          streamCodec q b m dr x y f).changed = false ↔
        (s.currentStreamingResX
            = (setOutputStreamPreferences env s streamCodec q b m dr x y f).state.requestedStreamingResX ∧
         s.currentStreamingResY
            = (setOutputStreamPreferences env s streamCodec q b m dr x y f).state.requestedStreamingResY))) := by
  by_cases hcond : prefsChanged env s streamCodec q b m x y f
  · rw [setPrefs_pos env s streamCodec q b m dr x y f hcond]
    refine ⟨by simp, fun _ => ⟨rfl, rfl, rfl, rfl, rfl, rfl, rfl, rfl⟩, by simp, fun _ => ?_⟩
    by_cases h2 : prefsChanged env
        ({ s with
          streamCodecId := env.codecFromGui streamCodec
          streamMaxFps := f
          streamQuality := q
          streamBitRate := b
          streamMaxPacketSize := adjustedMaxPacketSize env (env.codecFromGui streamCodec) m
          requestedStreamingResX := (requestedResolution env streamCodec x y).1
          requestedStreamingResY := (requestedResolution env streamCodec x y).2 } : MuxerState)
        streamCodec q b m x y f
    · rw [setPrefs_pos env _ streamCodec q b m dr x y f h2]
      simp only [prefsChanged, ne_eq, not_true_eq_false, false_or] at h2
      constructor
      · intro hfalse; exact absurd hfalse (by simp)
      · intro hres
        rcases h2 with h2 | h2
        · exact absurd hres.1 h2
        · exact absurd hres.2 h2
    · rw [setPrefs_neg env _ streamCodec q b m dr x y f h2]
      simp only [prefsChanged, ne_eq, not_or, not_not] at h2
      exact ⟨fun _ => ⟨h2.2.2.2.2.2.1, h2.2.2.2.2.2.2⟩, fun _ => rfl⟩
  · rw [setPrefs_neg env s streamCodec q b m dr x y f hcond]
    exact ⟨fun _ => ⟨rfl, rfl⟩, by simp, by simp, by simp⟩

/-- Claim C4, witness: the amended theorem applied to the constructor
state with concrete arguments; the first call reports a change and
persists the codec id, max fps and packet budget regardless of
`doReset`. -/
theorem c4_witness :
    (setOutputStreamPreferences sampleEnv initialMuxerState "H.261"
        20 (-1) 1000 false 352 288 0).state.streamCodecId = CodecID.H261 ∧
    (setOutputStreamPreferences sampleEnv initialMuxerState "H.261"
        20 (-1) 1000 false 352 288 0).state.streamMaxPacketSize = 876 := by
  have h := (c4_set_preferences_amended sampleEnv initialMuxerState "H.261"
      20 (-1) 1000 false 352 288 0).2.1 (by rfl)
  exact ⟨h.1, by rw [h.2.2.2.2.1]; rfl⟩

/-- An environment in which no encoder is available (models
`avcodec_find_encoder` returning NULL for every codec). -/
def noEncoderEnv : MuxerEnv :=
  { sampleEnv with encoderAvailable := fun _ => false }

/-- Claim C5, counterexample.  The claim states that for a codec name
with no available encoder the stored codec field is left unmodified.  In
the code the unsupported-codec check (part_000 lines 233-238) only logs;
line 292 then stores the mapped codec id whenever any compared field
differs.  Concretely: with no encoder available for H.261, calling the
setter with codec name H.261 on a state whose codec is H.264 logs the
rejection, returns `changed = true`, and stores H.261 — the codec field
is modified. -/
theorem c5_counterexample :
    (setOutputStreamPreferences noEncoderEnv
        { initialMuxerState with streamCodecId := CodecID.H264 } "H.261"
        20 (-1) 1000 false 352 288 0).loggedUnsupportedCodec = true ∧
    (setOutputStreamPreferences noEncoderEnv
        { initialMuxerState with streamCodecId := CodecID.H264 } "H.261"
        20 (-1) 1000 false 352 288 0).changed = true ∧
    (setOutputStreamPreferences noEncoderEnv
        { initialMuxerState with streamCodecId := CodecID.H264 } "H.261"
        20 (-1) 1000 false 352 288 0).state.streamCodecId = CodecID.H261 ∧
    CodecID.H261 ≠ CodecID.H264 := by
  refine ⟨rfl, rfl, rfl, by decide⟩

/-- Claim C5, amended.  When `SetOutputStreamPreferences` is called with
a codec name for which no encoder is available, it logs the rejection
and returns normally with its changed/unchanged result; however the
stored codec field is *not* protected: whenever any compared field
differs the mapped codec id of the unsupported codec is adopted, and the
codec field stays unmodified only when no compared field differs (in
which case the whole state is unchanged). -/
theorem c5_unsupported_codec_amended (env : MuxerEnv) (s : MuxerState)
    (streamCodec : String) (q b m : ℤ) (dr : Bool) (x y f : ℤ)
    (h : isOutputCodecSupported env streamCodec = false) :
    (setOutputStreamPreferences env s streamCodec q b m dr x y f).loggedUnsupportedCodec
        = true ∧
    ((setOutputStreamPreferences env s streamCodec q b m dr x y f).changed = true →
      (setOutputStreamPreferences env s streamCodec q b m dr x y f).state.streamCodecId
        = env.codecFromGui streamCodec) ∧
    ((setOutputStreamPreferences env s streamCodec q b m dr x y f).changed = false →
      (setOutputStreamPreferences env s streamCodec q b m dr x y f).state = s) := by
  by_cases hcond : prefsChanged env s streamCodec q b m x y f
  · rw [setPrefs_pos env s streamCodec q b m dr x y f hcond]
    exact ⟨by simp [h], fun _ => rfl, by simp⟩
  · rw [setPrefs_neg env s streamCodec q b m dr x y f hcond]
    exact ⟨by simp [h], by simp, fun _ => rfl⟩

/-- Claim C5, witness: the amended theorem applied to the concrete
no-encoder environment; the call logs the rejection and (having reported
a change) adopts the mapped codec id H.261. -/
theorem c5_witness :
    (setOutputStreamPreferences noEncoderEnv initialMuxerState "H.261"
        20 (-1) 1000 false 352 288 0).loggedUnsupportedCodec = true ∧
    (setOutputStreamPreferences noEncoderEnv initialMuxerState "H.261"
        20 (-1) 1000 false 352 288 0).state.streamCodecId
      = noEncoderEnv.codecFromGui "H.261" := by
  have h := c5_unsupported_codec_amended noEncoderEnv initialMuxerState "H.261"
      20 (-1) 1000 false 352 288 0 (by rfl)
  exact ⟨h.1, h.2.1 (by rfl)⟩

/-- The media discipline of a muxer instance. -/
inductive MediaType where
  | video
  | audio
deriving DecidableEq, Repr

/-- `MediaSourceMuxer::CalculateEncoderPts` (part_000 lines 1306-1319):
for video (or the MP3 codec) `frameNumber * 1000 / outputFrameRate`
(the float expression is truncated toward zero on assignment to the
`int64_t` result); for other audio codecs `frameNumber * frame_size`. -/
def calculateEncoderPts (mediaType : MediaType) (streamCodecId : CodecID)
    (outputFrameRate : ℚ) (codecFrameSize : ℤ) (frameNumber : ℤ) : ℤ :=
  if mediaType = MediaType.video ∨ streamCodecId = CodecID.MP3 then
    cTruncQ ((frameNumber * 1000 : ℚ) / outputFrameRate)
  else
    frameNumber * codecFrameSize

/-- The encoder-thread state touched by the video branch of
`MediaSourceMuxer::Run` when deriving one presentation timestamp
(part_000 lines 1492-1621): the frame counter, the encoder start time
and the last emitted video timestamp (`tLastVideoEncoderFrameTimestamp`,
initially 0). -/
structure VideoEncodeState where
  frameNumber : ℤ
  encoderStartTime : ℤ
  lastVideoEncoderFrameTimestamp : ℤ
deriving DecidableEq, Repr

/-- One pass of the video branch of `MediaSourceMuxer::Run` (part_000
lines 1548-1621) for a dequeued entry with arrival timestamp
`inputFrameTimestamp`: compute the fixed-rate timestamp via
`CalculateEncoderPts`; when the source has a variable output frame rate,
replace it by `(arrival - encoderStartTime) / 1000` (C `int64_t`
division), initializing the start time from the arrival time if it is
still 0; then, only when the last emitted video timestamp is nonzero and
the computed timestamp does not exceed it, substitute `last + 1`.  The
second component is the presentation timestamp relayed to the sinks
(`RelaySyncTimestampToMediaSinks(..., tYUVFrame->pts)`) for this
entry. -/
def videoEncodeStep (hasVariableOutputFrameRate : Bool) (streamCodecId : CodecID)
    (outputFrameRate : ℚ) (s : VideoEncodeState) (inputFrameTimestamp : ℤ) :
    VideoEncodeState × ℤ :=
  let ts0 := calculateEncoderPts MediaType.video streamCodecId outputFrameRate 0 s.frameNumber
  let start :=
    if hasVariableOutputFrameRate then
      (if s.encoderStartTime = 0 then inputFrameTimestamp else s.encoderStartTime)
    else s.encoderStartTime
  let ts1 :=
    if hasVariableOutputFrameRate then Int.tdiv (inputFrameTimestamp - start) 1000 else ts0
  let ts2 :=
    if s.lastVideoEncoderFrameTimestamp ≠ 0 ∧ ts1 ≤ s.lastVideoEncoderFrameTimestamp then
      s.lastVideoEncoderFrameTimestamp + 1
    else ts1
  (⟨s.frameNumber + 1, start, ts2⟩, ts2)

/-- The sequence of video presentation timestamps relayed to the sinks
for a sequence of dequeued arrival timestamps, threading the encoder
state through `videoEncodeStep`. -/
def videoEncodeRun (hasVariableOutputFrameRate : Bool) (streamCodecId : CodecID)
    (outputFrameRate : ℚ) (s : VideoEncodeState) : List ℤ → List ℤ
  | [] => []
  | t :: ts =>
      (videoEncodeStep hasVariableOutputFrameRate streamCodecId outputFrameRate s t).2 ::
        videoEncodeRun hasVariableOutputFrameRate streamCodecId outputFrameRate
          (videoEncodeStep hasVariableOutputFrameRate streamCodecId outputFrameRate s t).1 ts

/-- The emitted timestamp becomes the new
`tLastVideoEncoderFrameTimestamp`. -/
theorem videoEncodeStep_last (hvr : Bool) (codec : CodecID) (fps : ℚ)
    (s : VideoEncodeState) (t : ℤ) :
    (videoEncodeStep hvr codec fps s t).1.lastVideoEncoderFrameTimestamp
      = (videoEncodeStep hvr codec fps s t).2 := rfl

/-- The monotonic-floor substitution (part_000 lines 1560-1568) makes
the emitted value strictly exceed a nonzero previous value. -/
theorem monotoneFix_gt (last ts1 : ℤ) (h : last ≠ 0) :
    last < (if last ≠ 0 ∧ ts1 ≤ last then last + 1 else ts1) := by
  split
  next hc => omega
  next hc =>
    rw [not_and] at hc
    have := hc h
    omega

/-- When the last emitted video timestamp is nonzero, the next emitted
timestamp strictly exceeds it (part_000 lines 1560-1568). -/
theorem videoEncodeStep_gt (hvr : Bool) (codec : CodecID) (fps : ℚ)
    (s : VideoEncodeState) (t : ℤ)
    (h : s.lastVideoEncoderFrameTimestamp ≠ 0) :
    s.lastVideoEncoderFrameTimestamp < (videoEncodeStep hvr codec fps s t).2 :=
  monotoneFix_gt s.lastVideoEncoderFrameTimestamp _ h

/-- Claim C1, counterexample.  The claim states that the delivered video
timestamps are strictly increasing for every processed sequence, even
with non-increasing arrival timestamps.  With a variable-output-rate
source, the first processed entry emits timestamp 0 (arrival equals the
just-initialized start time), leaving `tLastVideoEncoderFrameTimestamp`
at 0; the `last != 0` guard then disables the `last + 1` substitution,
so a second entry arriving 100 ms *earlier* emits -100: the sequence
`[0, -100]` is not strictly increasing. -/
theorem c1_counterexample :
    videoEncodeRun true CodecID.NONE 25 ⟨0, 0, 0⟩ [1000000, 900000] = [0, -100] ∧
    ¬ List.Chain' (fun a b => a < b)
        (videoEncodeRun true CodecID.NONE 25 ⟨0, 0, 0⟩ [1000000, 900000]) := by
  constructor
  · rfl
  · intro h
    have := List.chain'_cons.mp (by
      have e : videoEncodeRun true CodecID.NONE 25 ⟨0, 0, 0⟩ [1000000, 900000]
          = [0, -100] := rfl
      rw [e] at h
      exact h)
    omega

/-- Claim C1, amended.  The `last + 1` substitution runs only when the
last emitted video timestamp is nonzero, so strict monotonicity is
guaranteed from the first nonzero emitted timestamp onward: whenever an
emitted timestamp `pts[i]` is nonzero, `pts[i+1] > pts[i]`.  While the
last emitted timestamp is 0 (in particular after the usual first frame,
whose timestamp is 0) the substitution is skipped and a repeated or
decreasing timestamp can be relayed. -/
theorem c1_video_pts_strictly_increasing_after_nonzero (hvr : Bool)
    (codec : CodecID) (fps : ℚ) (s : VideoEncodeState) (ts : List ℤ) (i : ℕ)
    (hlen : i + 1 < (videoEncodeRun hvr codec fps s ts).length)
    (hnz : (videoEncodeRun hvr codec fps s ts).getD i 0 ≠ 0) :
    (videoEncodeRun hvr codec fps s ts).getD i 0
      < (videoEncodeRun hvr codec fps s ts).getD (i + 1) 0 := by
  induction ts generalizing s i with
  | nil => simp [videoEncodeRun] at hlen
  | cons t rest ih =>
    match rest, i with
    | [], 0 => simp [videoEncodeRun] at hlen
    | t' :: rest', 0 =>
        simp only [videoEncodeRun, List.getD_cons_zero, List.getD_cons_succ] at hnz ⊢
        have hlast : ((videoEncodeStep hvr codec fps s t).1).lastVideoEncoderFrameTimestamp
            = (videoEncodeStep hvr codec fps s t).2 := videoEncodeStep_last hvr codec fps s t
        have := videoEncodeStep_gt hvr codec fps (videoEncodeStep hvr codec fps s t).1 t'
          (by rw [hlast]; exact hnz)
        rw [hlast] at this
        exact this
    | t' :: rest', i + 1 =>
        simp only [videoEncodeRun, List.getD_cons_succ] at hlen hnz ⊢
        exact ih (videoEncodeStep hvr codec fps s t).1 i
          (by simpa [videoEncodeRun] using hlen)
          (by simpa [videoEncodeRun] using hnz)

/-- Claim C1, witness: the amended theorem applied to a concrete run
(variable-rate policy, start time 1000, previous emitted timestamp 7,
arrivals 10000 then 5000): the emitted timestamps are `[9, 10]` and
`9 < 10` — the second arrival is earlier, yet the substitution fires
because the previous emitted timestamp 9 is nonzero. -/
theorem c1_witness :
    (videoEncodeRun true CodecID.NONE 25 ⟨5, 1000, 7⟩ [10000, 5000]).getD 0 0
      < (videoEncodeRun true CodecID.NONE 25 ⟨5, 1000, 7⟩ [10000, 5000]).getD 1 0 :=
  c1_video_pts_strictly_increasing_after_nonzero true CodecID.NONE 25 ⟨5, 1000, 7⟩
    [10000, 5000] 0 (by decide) (by decide)

/-- The frame-rate gate's only persistent state:
`mStreamMaxFps_LastFrame_Timestamp` (microseconds). -/
structure FpsGateState where
  lastFrameTimestamp : ℤ
deriving DecidableEq, Repr

/-- `MediaSourceMuxer::BelowMaxFps` (part_000 lines 1273-1304) at call
time `currentTime`: with a configured max fps, admit exactly when the
elapsed time since the reference timestamp strictly exceeds
`1000*1000 / maxFps` (C `int` division), and on admission set the new
reference to `currentTime` minus the overshoot
(`mStreamMaxFps_LastFrame_Timestamp = tCurrentTime` followed by
`-= tTimeDiffForNextFrame`); with max fps 0, admit unconditionally and
set the reference to `currentTime`. -/
def belowMaxFps (streamMaxFps : ℤ) (currentTime : ℤ) (g : FpsGateState) :
    Bool × FpsGateState :=
  if streamMaxFps ≠ 0 then
    let timeDiffToLastFrame := currentTime - g.lastFrameTimestamp
    let timeDiffTreshold := Int.tdiv (1000 * 1000) streamMaxFps
    let timeDiffForNextFrame := timeDiffToLastFrame - timeDiffTreshold
    if timeDiffForNextFrame > 0 then
      (true, ⟨currentTime - timeDiffForNextFrame⟩)
    else
      (false, g)
  else
    (true, ⟨currentTime⟩)

/-- Driving the frame-rate gate once per capture invocation (as
`GrabChunk` does, part_000 line 1243) over a list of call times,
counting the admitted frames. -/
def runFpsGate (streamMaxFps : ℤ) (g : FpsGateState) : List ℤ → ℕ × FpsGateState
  | [] => (0, g)
  | t :: ts =>
      let r := belowMaxFps streamMaxFps t g
      let rest := runFpsGate streamMaxFps r.2 ts
      ((if r.1 then 1 else 0) + rest.1, rest.2)

/-- With max fps 10 and reference timestamp `t0 + k * 100000`, at most
`10 - k` further frames are admitted among call times that do not exceed
`t0 + 1000000`: every admission advances the reference by exactly the
100000 microsecond interval. -/
theorem runFpsGate_ten_bound (t0 : ℤ) :
    ∀ (times : List ℤ) (k : ℕ), k ≤ 10 →
      (∀ t ∈ times, t ≤ t0 + 1000000) →
      (runFpsGate 10 ⟨t0 + (k : ℤ) * 100000⟩ times).1 + k ≤ 10 := by
  intro times
  induction times with
  | nil => intro k hk _; simpa [runFpsGate] using hk
  | cons t ts ih =>
    intro k hk hbound
    have hthr : Int.tdiv (1000 * 1000) 10 = 100000 := by decide
    have ht : t ≤ t0 + 1000000 := hbound t (List.mem_cons_self t ts)
    have hbound' : ∀ u ∈ ts, u ≤ t0 + 1000000 := fun u hu => hbound u (List.mem_cons_of_mem t hu)
    simp only [runFpsGate, belowMaxFps, hthr]
    have h10 : (10 : ℤ) ≠ 0 := by norm_num
    by_cases hadm : t - (t0 + (k : ℤ) * 100000) - 100000 > 0
    · have hk9 : k + 1 ≤ 10 := by
        by_contra hgt
        have hk10 : k = 10 := by omega
        rw [hk10] at hadm
        push_cast at hadm
        omega
      have href : t - (t - (t0 + (k : ℤ) * 100000) - 100000)
          = t0 + ((k : ℤ) + 1) * 100000 := by ring
      have hrec := ih (k + 1) hk9 hbound'
      push_cast at hrec
      simp only [if_pos h10, if_pos hadm, href]
      simp only [Prod.fst, Prod.snd, if_true]
      omega
    · have hrec := ih k hk hbound'
      simp only [if_pos h10, if_neg hadm]
      simp only [Prod.fst, Prod.snd, Bool.false_eq_true, if_false]
      omega

/-- Claim C8: the frame-rate gate admits unconditionally when no max fps
is configured; otherwise it admits exactly when the elapsed time since
the reference timestamp strictly exceeds `1 s / maxFps`, and on
admission the new reference equals the current time minus the overshoot
(equivalently, the old reference advanced by exactly one interval); and
driving the gate from a fresh reference `t0` with call times within
`[t0, t0 + 1 s]` under max fps 10 admits at most 10 frames. -/
theorem c8_fps_gate :
    (∀ (t : ℤ) (g : FpsGateState), (belowMaxFps 0 t g).1 = true) ∧
    (∀ (m t : ℤ) (g : FpsGateState), m ≠ 0 →
      ((belowMaxFps m t g).1 = true ↔
        t - g.lastFrameTimestamp > Int.tdiv (1000 * 1000) m)) ∧
    (∀ (m t : ℤ) (g : FpsGateState), m ≠ 0 → (belowMaxFps m t g).1 = true →
      (belowMaxFps m t g).2.lastFrameTimestamp
        = t - ((t - g.lastFrameTimestamp) - Int.tdiv (1000 * 1000) m)) ∧
    (∀ (t0 : ℤ) (times : List ℤ), (∀ t ∈ times, t ≤ t0 + 1000000) →
      (runFpsGate 10 ⟨t0⟩ times).1 ≤ 10) := by
  refine ⟨?_, ?_, ?_, ?_⟩
  · intro t g; simp [belowMaxFps]
  · intro m t g hm
    simp only [belowMaxFps, if_pos hm]
    by_cases h : t - g.lastFrameTimestamp - Int.tdiv (1000 * 1000) m > 0
    · simp only [if_pos h]
      constructor
      · intro _; omega
      · intro _; trivial
    · simp only [if_neg h]
      constructor
      · intro hfalse; exact absurd hfalse (by simp)
      · intro hgt; exact absurd (by omega : t - g.lastFrameTimestamp
          - Int.tdiv (1000 * 1000) m > 0) h
  · intro m t g hm hadm
    simp only [belowMaxFps, if_pos hm] at hadm ⊢
    by_cases h : t - g.lastFrameTimestamp - Int.tdiv (1000 * 1000) m > 0
    · simp only [if_pos h]
    · simp only [if_neg h] at hadm
      exact absurd hadm (by simp)
  · intro t0 times hbound
    have := runFpsGate_ten_bound t0 times 0 (by omega) hbound
    simpa using this

/-- Claim C8, witness: the gate theorem applied at concrete inputs —
with reference 0 the call at time 200000 is admitted iff the elapsed
time exceeds the 100000 microsecond interval, and four call times within
one second admit at most 10 frames. -/
theorem c8_witness :
    ((belowMaxFps 10 200000 ⟨0⟩).1 = true ↔
      200000 - (FpsGateState.mk 0).lastFrameTimestamp > Int.tdiv (1000 * 1000) 10) ∧
    (runFpsGate 10 ⟨0⟩ [50000, 150000, 250000, 350000]).1 ≤ 10 :=
  ⟨c8_fps_gate.2.1 10 200000 ⟨0⟩ (by norm_num),
   c8_fps_gate.2.2.2 0 [50000, 150000, 250000, 350000] (by decide)⟩

/-- Modelled from the spec: the capacity of the transcode thread's frame
queue, `MEDIA_SOURCE_MUX_INPUT_QUEUE_SIZE_LIMIT` (the constant is
defined in `MediaSourceMuxer.h`, outside the sources at hand; the spec's
worked example uses capacity 16). -/
def MEDIA_SOURCE_MUX_INPUT_QUEUE_SIZE_LIMIT : ℕ := 16

/-- One entry of the frame queue: an owned payload (represented by its
length) plus the arrival timestamp. -/
structure FifoEntry where
  size : ℕ
  timestamp : ℤ
deriving DecidableEq, Repr

/-- Modelled from the spec: the `MediaFifo` queue primitive (outside the
sources at hand) is a bounded FIFO whose `usage()` is the number of
stored entries and whose `clear()` empties it.  This function is the
queue-maintenance tail of one pass of the `MediaSourceMuxer::Run`
consumer loop (part_000 lines 1834-1844): the exclusive read consumes
the head entry, and after `ReadFifoExclusiveFinished` the queue is fully
cleared whenever its usage has reached
`MEDIA_SOURCE_MUX_INPUT_QUEUE_SIZE_LIMIT - 4`. -/
def encoderLoopQueueMaintenance (q : List FifoEntry) : List FifoEntry :=
  let rest := q.tail
  if rest.length ≥ MEDIA_SOURCE_MUX_INPUT_QUEUE_SIZE_LIMIT - 4 then [] else rest

/-- Claim C7: whenever the queue occupancy observed after finishing the
current read ticket reaches capacity minus 4 (12 for capacity 16), the
consumer pass clears the whole queue, so the occupancy after the pass is
0; and the occupancy never exceeds the configured capacity across a
consumer pass (the pass never adds entries). -/
theorem c7_queue_overload_flush (q : List FifoEntry) :
    (q.tail.length ≥ MEDIA_SOURCE_MUX_INPUT_QUEUE_SIZE_LIMIT - 4 →
      encoderLoopQueueMaintenance q = []) ∧
    (encoderLoopQueueMaintenance q).length ≤ q.length ∧
    (q.length ≤ MEDIA_SOURCE_MUX_INPUT_QUEUE_SIZE_LIMIT →
      (encoderLoopQueueMaintenance q).length ≤ MEDIA_SOURCE_MUX_INPUT_QUEUE_SIZE_LIMIT) := by
  refine ⟨fun h => ?_, ?_, fun h => ?_⟩
  · simp only [encoderLoopQueueMaintenance, if_pos h]
  · simp only [encoderLoopQueueMaintenance]
    split
    · simp
    · cases q <;> simp
  · simp only [encoderLoopQueueMaintenance]
    split
    · simp
    · cases q with
      | nil => simp
      | cons a as => simp only [List.tail_cons, List.length_cons] at h ⊢; omega

/-- Claim C7, witness: the theorem applied to a queue holding 13 entries
— after consuming one, the remaining 12 reach the overload mark and the
pass empties the queue. -/
theorem c7_witness :
    encoderLoopQueueMaintenance (List.replicate 13 ⟨0, 0⟩) = [] :=
  (c7_queue_overload_flush (List.replicate 13 ⟨0, 0⟩)).1 (by decide)

/-- Modelled from the spec: `MediaSource::ContainsOnlySilence` (outside
the sources at hand) classifies one channel's slice as silence when all
its samples are below the configured threshold in magnitude. -/
def containsOnlySilence (threshold : ℤ) (samples : List ℤ) : Bool :=
  samples.all fun s => decide ((s.natAbs : ℤ) < threshold)

/-- The audio-branch counters of `MediaSourceMuxer::Run` touched by
silence suppression: the frame counter used for PTS generation and
`mRelayingSkipAudioSilenceSkippedChunks`. -/
structure AudioEncodeState where
  frameNumber : ℤ
  relayingSkipAudioSilenceSkippedChunks : ℤ
deriving DecidableEq, Repr

/-- Processing of one fully available audio slice by the audio branch of
`MediaSourceMuxer::Run` (part_000 lines 1712-1819): per output channel,
the slice is marked non-silent as soon as suppression is off or the
channel's data is not all-silence (`tSilenceAudioFrame` starts `true`
and is cleared inside the channel loop); a silent slice only increments
the skip counter, a non-silent slice is encoded
(`EncodeAndWritePacket`) and advances the frame counter.  The boolean
result records whether an encode call was made. -/
def processAudioSlice (skipSilence : Bool) (threshold : ℤ)
    (sliceChannels : List (List ℤ)) (s : AudioEncodeState) : AudioEncodeState × Bool :=
  let silenceAudioFrame :=
    sliceChannels.all fun ch => skipSilence && containsOnlySilence threshold ch
  if silenceAudioFrame then
    ({ s with relayingSkipAudioSilenceSkippedChunks :=
        s.relayingSkipAudioSilenceSkippedChunks + 1 }, false)
  else
    ({ s with frameNumber := s.frameNumber + 1 }, true)

/-- Processing of a sequence of fully available audio slices, counting
the encode calls. -/
def processAudioSlices (skipSilence : Bool) (threshold : ℤ)
    (s : AudioEncodeState) : List (List (List ℤ)) → AudioEncodeState × ℕ
  | [] => (s, 0)
  | c :: cs =>
      let r := processAudioSlice skipSilence threshold c s
      let rest := processAudioSlices skipSilence threshold r.1 cs
      (rest.1, (if r.2 then 1 else 0) + rest.2)

/-- Claim C9: with silence suppression enabled, a run of N slices whose
channels are all classified as silence increments the skip counter by
exactly N, makes no encode call and leaves the frame counter unchanged;
a slice with at least one non-silent channel is encoded, advances the
frame counter and leaves the skip counter unchanged; with suppression
disabled every (non-degenerate, i.e. at least one channel) slice is
encoded. -/
theorem c9_silence_suppression :
    (∀ (threshold : ℤ) (slices : List (List (List ℤ))) (s : AudioEncodeState),
      (∀ sl ∈ slices, ∀ ch ∈ sl, containsOnlySilence threshold ch = true) →
      processAudioSlices true threshold s slices
        = ({ frameNumber := s.frameNumber,
             relayingSkipAudioSilenceSkippedChunks :=
               s.relayingSkipAudioSilenceSkippedChunks + slices.length }, 0)) ∧
    (∀ (skipSilence : Bool) (threshold : ℤ) (sl : List (List ℤ)) (s : AudioEncodeState),
      (∃ ch ∈ sl, containsOnlySilence threshold ch = false) →
      processAudioSlice skipSilence threshold sl s
        = ({ frameNumber := s.frameNumber + 1,
             relayingSkipAudioSilenceSkippedChunks :=
               s.relayingSkipAudioSilenceSkippedChunks }, true)) ∧
    (∀ (threshold : ℤ) (sl : List (List ℤ)) (s : AudioEncodeState), sl ≠ [] →
      processAudioSlice false threshold sl s
        = ({ frameNumber := s.frameNumber + 1,
             relayingSkipAudioSilenceSkippedChunks :=
               s.relayingSkipAudioSilenceSkippedChunks }, true)) := by
  refine ⟨?_, ?_, ?_⟩
  · intro threshold slices
    induction slices with
    | nil => intro s _; simp [processAudioSlices]
    | cons sl rest ih =>
      intro s hall
      have hsl : (sl.all fun ch => true && containsOnlySilence threshold ch) = true := by
        simp only [Bool.true_and, List.all_eq_true]
        exact fun ch hch => hall sl (List.mem_cons_self sl rest) ch hch
      have hrest := ih { s with relayingSkipAudioSilenceSkippedChunks :=
          s.relayingSkipAudioSilenceSkippedChunks + 1 }
        (fun u hu ch hch => hall u (List.mem_cons_of_mem sl hu) ch hch)
      simp only [processAudioSlices, processAudioSlice, hsl, if_pos]
      rw [hrest]
      simp only [Bool.false_eq_true, if_false, Prod.mk.injEq, AudioEncodeState.mk.injEq,
        List.length_cons]
      push_cast
      refine ⟨⟨?_, ?_⟩, ?_⟩
      · trivial
      · ring
      · trivial
  · intro skipSilence threshold sl s hex
    have hsl : (sl.all fun ch => skipSilence && containsOnlySilence threshold ch) = false := by
      rcases hex with ⟨ch, hch, hfalse⟩
      simp only [List.all_eq_false]
      exact ⟨ch, hch, by simp [hfalse]⟩
    simp [processAudioSlice, hsl]
  · intro threshold sl s hne
    have hsl : (sl.all fun ch => false && containsOnlySilence threshold ch) = false := by
      cases sl with
      | nil => exact absurd rfl hne
      | cons ch rest => simp
    simp only [processAudioSlice, hsl, Bool.false_eq_true, if_false]

/-- Claim C9, witness: the theorem applied to concrete slices with
threshold 100 — two all-silent two-channel slices bump the skip counter
from 3 to 5 with zero encodes, and a slice with one loud channel is
encoded without touching the skip counter. -/
theorem c9_witness :
    processAudioSlices true 100 ⟨7, 3⟩ [[[0, 5], [2]], [[3], [4, 1]]] = (⟨7, 5⟩, 0) ∧
    processAudioSlice true 100 [[0, 5], [500]] ⟨7, 3⟩ = (⟨8, 3⟩, true) ∧
    processAudioSlice false 100 [[0, 5]] ⟨7, 3⟩ = (⟨8, 3⟩, true) :=
  ⟨c9_silence_suppression.1 100 [[[0, 5], [2]], [[3], [4, 1]]] ⟨7, 3⟩ (by decide),
   c9_silence_suppression.2.1 true 100 [[0, 5], [500]] ⟨7, 3⟩
     ⟨[500], by simp, by decide⟩,
   c9_silence_suppression.2.2 100 [[0, 5]] ⟨7, 3⟩ (by simp)⟩

/-- The frame-rate clamp at the head of
`MediaSourceMuxer::OpenVideoGrabDevice` (part_000 lines 687-690):
requested rates above 29.97 become 29.97, rates below 5 become 5 (C
`float` values modelled as rationals). -/
def openVideoGrabDeviceClampedFps (pFps : ℚ) : ℚ :=
  let f1 := if pFps > 2997 / 100 then 2997 / 100 else pFps
  if f1 < 5 then 5 else f1

/-- The frame rate that `MediaSourceMuxer::OpenVideoMuxer` (part_000
lines 404-455) stores into `mInputFrameRate` and `mOutputFrameRate`: the
requested rate is first overridden by the base source's output frame
rate when a base source is attached, then by the `mStreamMaxFps`
preference when it is nonzero, and finally clamped into
`[5, 29.97]`. -/
def openVideoMuxerUsedFrameRate (baseSourceOutputFrameRate : Option ℚ)
    (streamMaxFps : ℤ) (pFps : ℚ) : ℚ :=
  let f1 := match baseSourceOutputFrameRate with
    | some tFps => tFps
    | none => pFps
  let f2 := if streamMaxFps ≠ 0 then (streamMaxFps : ℚ) else f1
  let f3 := if f2 > 2997 / 100 then 2997 / 100 else f2
  if f3 < 5 then 5 else f3

/-- Claim C10: for every call to `OpenVideoMuxer` and
`OpenVideoGrabDevice` the frame rate in play is silently clamped into
`[5, 29.97]` before being used as the session's input and output frame
rate: the stored rate always lies in `[5, 29.97]`; any effective value
above 29.97 becomes 29.97 and any below 5 becomes 5 (in `OpenVideoMuxer`
the clamp applies to the requested rate after the base-source and
max-fps overrides; with no base source and no max-fps preference it
applies to the requested rate itself, exactly as in
`OpenVideoGrabDevice`). -/
theorem c10_fps_clamp :
    (∀ pFps : ℚ, 5 ≤ openVideoGrabDeviceClampedFps pFps ∧
      openVideoGrabDeviceClampedFps pFps ≤ 2997 / 100 ∧
      (pFps > 2997 / 100 → openVideoGrabDeviceClampedFps pFps = 2997 / 100) ∧
      (pFps < 5 → openVideoGrabDeviceClampedFps pFps = 5) ∧
      (5 ≤ pFps → pFps ≤ 2997 / 100 → openVideoGrabDeviceClampedFps pFps = pFps)) ∧
    (∀ (base : Option ℚ) (maxFps : ℤ) (pFps : ℚ),
      5 ≤ openVideoMuxerUsedFrameRate base maxFps pFps ∧
      openVideoMuxerUsedFrameRate base maxFps pFps ≤ 2997 / 100) ∧
    (∀ pFps : ℚ,
      openVideoMuxerUsedFrameRate none 0 pFps = openVideoGrabDeviceClampedFps pFps) := by
  have hclamp : ∀ f2 : ℚ, 5 ≤ (if (if f2 > 2997 / 100 then 2997 / 100 else f2) < 5 then 5
      else (if f2 > 2997 / 100 then 2997 / 100 else f2)) ∧
      (if (if f2 > 2997 / 100 then 2997 / 100 else f2) < 5 then 5
      else (if f2 > 2997 / 100 then 2997 / 100 else f2)) ≤ 2997 / 100 := by
    intro f2
    by_cases hhigh : f2 > 2997 / 100
    · simp only [if_pos hhigh]
      norm_num
    · simp only [if_neg hhigh]
      push_neg at hhigh
      by_cases hlow : f2 < 5
      · simp only [if_pos hlow]
        norm_num
      · simp only [if_neg hlow]
        push_neg at hlow
        exact ⟨hlow, hhigh⟩
  refine ⟨?_, ?_, ?_⟩
  · intro pFps
    refine ⟨(hclamp pFps).1, (hclamp pFps).2, ?_, ?_, ?_⟩
    · intro hgt
      simp only [openVideoGrabDeviceClampedFps, if_pos hgt]
      norm_num
    · intro hlt
      have hok : ¬ pFps > 2997 / 100 := by linarith
      simp only [openVideoGrabDeviceClampedFps, if_neg hok, if_pos hlt]
    · intro h5 h29
      have hok : ¬ pFps > 2997 / 100 := by linarith
      have hok2 : ¬ pFps < 5 := by linarith
      simp only [openVideoGrabDeviceClampedFps, if_neg hok, if_neg hok2]
  · intro base maxFps pFps
    exact hclamp _
  · intro pFps
    simp [openVideoMuxerUsedFrameRate, openVideoGrabDeviceClampedFps]

/-- Claim C10, witness: the theorem applied at concrete rates — a
requested 100 fps is clamped to 29.97 and a requested 1 fps is clamped
to 5, both by `OpenVideoGrabDevice`'s clamp and through a max-fps
preference of 100 in `OpenVideoMuxer`. -/
theorem c10_witness :
    openVideoGrabDeviceClampedFps 100 = 2997 / 100 ∧
    openVideoGrabDeviceClampedFps 1 = 5 ∧
    5 ≤ openVideoMuxerUsedFrameRate (some 25) 100 100 ∧
    openVideoMuxerUsedFrameRate (some 25) 100 100 ≤ 2997 / 100 :=
  ⟨(c10_fps_clamp.1 100).2.2.1 (by norm_num),
   (c10_fps_clamp.1 1).2.2.2.1 (by norm_num),
   (c10_fps_clamp.2.1 (some 25) 100 100).1,
   (c10_fps_clamp.2.1 (some 25) 100 100).2⟩

/-- One registered candidate source as observed by
`MediaSourceMuxer::SelectDevice`: whether its own `SelectDevice` probe
accepts the requested device name, the `pIsNewDevice` value it reports
on acceptance, and whether (re)opening the grab device against it
succeeds. -/
structure MediaSourceCandidate where
  acceptsDevice : Bool
  isNewDevice : Bool
  opensOk : Bool
deriving DecidableEq, Repr

/-- The probe loop of `MediaSourceMuxer::SelectDevice` (part_000 lines
2465-2470): ask each registered candidate in registration order and stop
at the first acceptance, returning its index and its `pIsNewDevice`
report. -/
def probeCandidates : List MediaSourceCandidate → Option (ℕ × Bool)
  | [] => none
  | c :: cs =>
      if c.acceptsDevice then some (0, c.isNewDevice)
      else (probeCandidates cs).map fun r => (r.1 + 1, r.2)

/-- The rollback loop of `MediaSourceMuxer::SelectDevice` (part_000
lines 2530-2535): after restoring `mMediaSource` to the old source, the
loop condition re-attempts `OpenVideoGrabDevice` — which opens
`mMediaSource`, i.e. the *old* source — and, while that fails and the
iterator has not reached the end, advances the iterator and merely calls
`SelectDevice` on the next candidate (never assigning it to
`mMediaSource`).  `fuel` is the number of iterator increments available
before the end of the candidate list. -/
def rollbackProbeLoop (oldOpensOk : Bool) : ℕ → Bool
  | 0 => oldOpensOk
  | n + 1 => if oldOpensOk then true else rollbackProbeLoop oldOpensOk n

/-- The muxer fields observable through `SelectDevice`: the index of the
active source (`mMediaSource`) in the registration list, whether the
session is open (`mMediaSourceOpened`), and whether `mCurrentDevice`
equals the desired device name. -/
structure SelectorState where
  activeIdx : ℕ
  opened : Bool
  currentDeviceIsDesired : Bool
deriving DecidableEq, Repr

/-- `MediaSourceMuxer::SelectDevice` (part_000 lines 2435-2581) for the
video path and a non-`FILE:` device name, returning
`(tResult, pIsNewDevice, state after the call)`.  With no registered
source the call returns `true` (the `tResult` initialization at line
2446) without touching the state.  If a candidate accepts and selection
switches away from the current source while the session is open, the old
source is closed, the active pointer switched, and the new source
reopened; on reopen failure the active pointer is restored to the old
source and the rollback loop runs (see `rollbackProbeLoop`).  The
media-filter carry-over (lines 2570-2574) has no effect on the modelled
fields and is omitted. -/
def selectDeviceMuxer (cands : List MediaSourceCandidate) (s : SelectorState) :
    Bool × Bool × SelectorState :=
  if cands.length = 0 then (true, false, s)
  else
    match probeCandidates cands with
    | none => (false, false, s)
    | some (i, isNew) =>
        if i ≠ s.activeIdx ∨ ¬ s.currentDeviceIsDesired then
          if s.opened then
            if (cands.getD i ⟨false, false, false⟩).opensOk then
              (true, isNew, ⟨i, true, true⟩)
            else
              let ok := rollbackProbeLoop
                (cands.getD s.activeIdx ⟨false, false, false⟩).opensOk
                (cands.length - i)
              (ok, false, ⟨s.activeIdx, ok, true⟩)
          else
            (true, isNew, ⟨i, false, true⟩)
        else
          (true, false, ⟨s.activeIdx, s.opened, true⟩)

/-- Claim C6, evaluation at the failing input.  Three registered
candidates, the currently active source at index 0 with an open session;
the new device name is accepted by candidate 1, which fails to open;
candidate 2 also accepts and *would* open successfully; the old source
fails to reopen.  The claim (and spec §4.6) requires success with the
active source equal to candidate 2.  The code instead restores the old
source, repeatedly retries reopening *it* while only probing — never
activating — candidate 2, and returns failure with candidate 0 still
active.  The second conjunct records that the all-candidates-fail case
does return failure with the active pointer unchanged, which is the only
part of the claim the code satisfies. -/
theorem c6_selector_rollback_evaluation :
    (selectDeviceMuxer
        [⟨false, false, false⟩, ⟨true, true, false⟩, ⟨true, true, true⟩]
        ⟨0, true, false⟩
      = (false, false, ⟨0, false, true⟩) ∧
     ([⟨false, false, false⟩, ⟨true, true, false⟩,
        (⟨true, true, true⟩ : MediaSourceCandidate)].getD 2
          ⟨false, false, false⟩).opensOk = true) ∧
    selectDeviceMuxer
        [⟨false, false, false⟩, ⟨true, true, false⟩, ⟨true, true, false⟩]
        ⟨0, true, false⟩
      = (false, false, ⟨0, false, true⟩) := by
  refine ⟨⟨rfl, rfl⟩, rfl⟩

end HomerMux
